import Mathlib

/-!
Verification of the Gemini Vision API client (src/api_client.py).

A shallow embedding of the API client module of the repository:

* the helper _encode_image_buffer  → encodeImageBuffer (with base64
  modelled by b64EncodeList, and a mathematical inverse b64DecodeList
  used to state the round-trip property);
* the helper _make_gemini_payload  → makeGeminiPayload;
* GeminiClient.__init__            → mkGeminiClient;
* GeminiClient._call_gemini        → callGemini (one attempt) and
  buildRequest (the HTTP request it issues);
* GeminiClient.analyze_image_from_buffer → analyzeImageFromBuffer,
  whose retry loop is runAttempts.

JSON values are modelled by the inductive Json; Python dictionary
results are Json.obj association lists.  Python exceptions are modelled
by PyError, and a computation that can raise is an Except PyError
value.  The HTTP transport (the requests library plus the remote
server) is modelled as a function from the attempt number to either a
network-level failure (requests.RequestException) or an HttpResponse;
since JSON parsing of the body is performed by the third-party requests
library, the response carries the result of resp.json() as an
Option Json (none = the body is not valid JSON, so resp.json() raises
ValueError).  Backoff durations are modelled as rationals.
-/

/-- A JSON value (the values that resp.json() can produce and that the
payload builder constructs).  Objects are association lists of string
keys, matching Python dictionaries with string keys. -/
inductive Json where
  | null : Json
  | bool : Bool → Json
  | num : Int → Json
  | str : String → Json
  | arr : List Json → Json
  | obj : List (String × Json) → Json

/-- Python exceptions that the code paths of the client can raise.
apiError is the APIError of the module; requestException stands for any
requests.RequestException (timeout, connection error, ...); the others
are built-in exceptions raised by subscription or attribute access. -/
inductive PyError where
  | apiError : String → PyError
  | requestException : String → PyError
  | indexError : PyError
  | keyError : PyError
  | typeError : PyError
deriving DecidableEq

/-- How Python renders a caught exception into the final error message
(for APIError the message itself; a RequestException likewise carries
its message). -/
def pyErrStr : PyError → String
  | .apiError m => m
  | .requestException m => m
  | .indexError => "list index out of range"
  | .keyError => "KeyError"
  | .typeError => "TypeError"

/-- What the transport hands back for one attempt: the HTTP status
code, the raw body resp.text, and the result of resp.json() (none when
the body is not valid JSON). -/
structure HttpResponse where
  status : Nat
  text : String
  jsonVal : Option Json

/-- A transport: for each attempt number (1-based) either a
network-level failure message (requests.RequestException) or an HTTP
response.  This models the mocked transports of the testable properties
in the spec. -/
def Transport := Nat → Except String HttpResponse

/-- Substring test on lists of characters (the Python `in` operator on
strings). -/
def containsSub (needle : List Char) : List Char → Bool
  | [] => needle.isEmpty
  | c :: t => needle.isPrefixOf (c :: t) || containsSub needle t

/-- Membership of `needle` in `hay` for Python strings. -/
def strContainsB (hay needle : String) : Bool :=
  containsSub needle.toList hay.toList

/-- The method `_call_gemini` (src/api_client.py lines 95 to 126),
given what the transport returned for this attempt.  The call
resp.raise_for_status() raises for any status in [400, 600); statuses
400/401/403 get the configuration-check message, other raised statuses
the generic one; otherwise the parsed JSON is returned, and an
unparsable body raises APIError with the invalid-JSON message. -/
def callGemini (r : Except String HttpResponse) : Except PyError Json :=
  match r with
  | .error msg => .error (.requestException msg)
  | .ok resp =>
    if 400 ≤ resp.status ∧ resp.status < 600 then
      if resp.status = 400 ∨ resp.status = 401 ∨ resp.status = 403 then
        .error (.apiError ("Gemini API Error " ++ toString resp.status ++
          ": Check API Key or URL configuration. Details: " ++ resp.text))
      else
        .error (.apiError ("Gemini API Error " ++ toString resp.status ++
          ". Details: " ++ resp.text))
    else
      match resp.jsonVal with
      | some j => .ok j
      | none => .error (.apiError ("Invalid JSON response from API: " ++ resp.text))

/-- Python dictionary lookup with default, d.get(key, dflt): requires a
dictionary receiver (any other receiver raises; the retry loop catches
only RequestException and APIError, so such raises escape uncaught,
and we fold them into typeError). -/
def pyGet (j : Json) (key : String) (dflt : Json) : Except PyError Json :=
  match j with
  | .obj kvs =>
    match kvs.lookup key with
    | some v => .ok v
    | none => .ok dflt
  | _ => .error .typeError

/-- Python subscription x[0]: first element of a list (raising
IndexError when the list is empty), first character of a string,
KeyError on a JSON-parsed dictionary (whose keys are strings, never the
integer 0), TypeError otherwise. -/
def pySub0 (j : Json) : Except PyError Json :=
  match j with
  | .arr [] => .error .indexError
  | .arr (x :: _) => .ok x
  | .str s =>
    match s.toList with
    | [] => .error .indexError
    | c :: _ => .ok (.str (String.mk [c]))
  | .obj _ => .error .keyError
  | _ => .error .typeError

/-- Line 163: the chained defaulting lookups
result.get(candidates, [one empty dict])[0].get(content, empty
dict).get(parts, [one empty dict])[0].get(text, empty string). -/
def extractAnalysis (result : Json) : Except PyError Json := do
  let candidates ← pyGet result "candidates" (Json.arr [Json.obj []])
  let c0 ← pySub0 candidates
  let content ← pyGet c0 "content" (Json.obj [])
  let parts ← pyGet content "parts" (Json.arr [Json.obj []])
  let p0 ← pySub0 parts
  pyGet p0 "text" (Json.str "")

/-- Lines 166 and 167: result.get(usageMetadata, empty
dict).get(totalTokenCount, 0). -/
def extractTokens (result : Json) : Except PyError Json := do
  let usageMetadata ← pyGet result "usageMetadata" (Json.obj [])
  pyGet usageMetadata "totalTokenCount" (Json.num 0)

/-- The success dictionary returned at line 169. -/
def successJson (analysis : Json) (modelName : String) (tokens : Json) : Json :=
  Json.obj [("success", Json.bool true), ("analysis", analysis),
    ("model_used", Json.str modelName), ("tokens_used", tokens)]

/-- Lines 163 to 174: what the body of the try block does with a
successfully parsed response: extract the analysis text, then the token
count, then build the success dictionary; any exception raised by the
extraction chain propagates (it is not of a type the except clause
catches). -/
def extractOutcome (result : Json) (modelName : String) : Except PyError Json := do
  let text ← extractAnalysis result
  let tokens ← extractTokens result
  pure (successJson text modelName tokens)

/-- The final failure dictionary returned at line 194 (last_exc is None
when the loop body never ran). -/
def failureJson (lastExc : Option PyError) (modelName : String) : Json :=
  Json.obj [("success", Json.bool false),
    ("error", Json.str ("All attempts failed. Last error: " ++
      (match lastExc with | none => "None" | some e => pyErrStr e))),
    ("model_used", Json.str modelName)]

/-- The retry classifier at line 181: isinstance(e, APIError), and the
message contains "API Error 4", and the message does not contain
"429". -/
def shouldBreak (e : PyError) : Bool :=
  match e with
  | .apiError msg => strContainsB msg "API Error 4" && ! strContainsB msg "429"
  | _ => false

/-- What one analyze call observably did: the value it returned to the
caller (an error value when an uncaught exception escaped the loop),
the number of HTTP attempts performed, and the list of time.sleep
durations in order. -/
structure RunResult where
  result : Except PyError Json
  attempts : Nat
  sleeps : List ℚ

/-- The loop for attempt in range(1, max_attempts + 1) of
analyze_image_from_buffer (lines 154 to 194).  The fuel argument is the
number of loop iterations still available (maxAttempts - attempt + 1 at
every call); the loop exits by returning the success dictionary, by an
uncaught extraction exception, by break on a non-retryable
classification, or by exhausting attempts, the last two falling through
to the final failure dictionary. -/
def runAttempts (transport : Transport) (modelName : String) (maxAttempts : Nat)
    (initialBackoff backoffMultiplier : ℚ) :
    Nat → Nat → Option PyError → RunResult
  | _, 0, lastExc => ⟨.ok (failureJson lastExc modelName), 0, []⟩
  | attempt, fuel + 1, _ =>
    match callGemini (transport attempt) with
    | .ok result =>
      match extractOutcome result modelName with
      | .ok j => ⟨.ok j, 1, []⟩
      | .error e => ⟨.error e, 1, []⟩
    | .error e =>
      if shouldBreak e then
        ⟨.ok (failureJson (some e) modelName), 1, []⟩
      else if attempt < maxAttempts then
        let backoff := initialBackoff * backoffMultiplier ^ (attempt - 1)
        let rest := runAttempts transport modelName maxAttempts initialBackoff
          backoffMultiplier (attempt + 1) fuel (some e)
        ⟨rest.result, rest.attempts + 1, backoff :: rest.sleeps⟩
      else
        ⟨.ok (failureJson (some e) modelName), 1, []⟩

/-- The standard base64 alphabet. -/
def b64Alphabet : List Char :=
  "ABCDEFGHIJKLMNOPQRSTUVWXYZabcdefghijklmnopqrstuvwxyz0123456789+/".toList

/-- The character for a 6-bit group. -/
def sextetChar (n : Nat) : Char := b64Alphabet.getD n 'A'

/-- The 6-bit value of an alphabet character. -/
def sextetVal (c : Char) : Nat := b64Alphabet.indexOf c

/-- RFC 4648 base64 encoding of a byte list (base64.b64encode). -/
def b64EncodeList : List Nat → List Char
  | [] => []
  | [a] => [sextetChar (a / 4), sextetChar (a % 4 * 16), '=', '=']
  | [a, b] => [sextetChar (a / 4), sextetChar (a % 4 * 16 + b / 16),
      sextetChar (b % 16 * 4), '=']
  | a :: b :: c :: rest =>
    sextetChar (a / 4) :: sextetChar (a % 4 * 16 + b / 16) ::
      sextetChar (b % 16 * 4 + c / 64) :: sextetChar (c % 64) :: b64EncodeList rest

/-- Base64 decoding, the mathematical inverse used to state the
round-trip property of the image field of the payload. -/
def b64DecodeList : List Char → List Nat
  | c1 :: c2 :: c3 :: c4 :: rest =>
    if c3 = '=' then
      [sextetVal c1 * 4 + sextetVal c2 / 16]
    else if c4 = '=' then
      [sextetVal c1 * 4 + sextetVal c2 / 16,
       sextetVal c2 % 16 * 16 + sextetVal c3 / 4]
    else
      (sextetVal c1 * 4 + sextetVal c2 / 16) ::
        (sextetVal c2 % 16 * 16 + sextetVal c3 / 4) ::
        (sextetVal c3 % 4 * 64 + sextetVal c4) :: b64DecodeList rest
  | _ => []

/-- The helper _encode_image_buffer (lines 40 to 43): reading the
buffer either raises (an unreadable buffer, modelled as an error value)
or yields the byte list, which is base64-encoded; base64 output is
ASCII so the UTF-8 decode never fails.  Note an empty readable buffer
encodes, without error, to the empty string. -/
def encodeImageBuffer (imageBuffer : Except String (List Nat)) : Except String String :=
  match imageBuffer with
  | .error e => .error e
  | .ok bytes => .ok (String.mk (b64EncodeList bytes))

/-- The builder _make_gemini_payload (lines 45 to 74).  The model name
is deliberately unused: the model is selected by the endpoint URL and
the payload carries no model or config block. -/
def makeGeminiPayload (base64Image systemPrompt userQuery _modelName : String) : Json :=
  Json.obj [("contents", Json.arr [Json.obj [
    ("role", Json.str "user"),
    ("parts", Json.arr [
      Json.obj [("inlineData", Json.obj [
        ("mimeType", Json.str "image/jpeg"),
        ("data", Json.str base64Image)])],
      Json.obj [("text", Json.str ("SYSTEM INSTRUCTION: " ++ systemPrompt ++
        "\n\nUSER QUERY: " ++ userQuery))]])]])]

/-- The method analyze_image_from_buffer (lines 129 to 194): encode the
image (returning the encoding-failure dictionary, with zero attempts
and no sleeps, when reading raises), build the payload once, then run
the attempt loop starting at attempt 1 with maxAttempts iterations
available. -/
def analyzeImageFromBuffer (transport : Transport)
    (imageBuffer : Except String (List Nat)) (modelName systemPrompt userQuery : String)
    (maxAttempts : Nat) (initialBackoff backoffMultiplier : ℚ) : RunResult :=
  match encodeImageBuffer imageBuffer with
  | .error e =>
    ⟨.ok (Json.obj [("success", Json.bool false),
      ("error", Json.str ("Image encoding failed: " ++ e))]), 0, []⟩
  | .ok base64Image =>
    let _payload := makeGeminiPayload base64Image systemPrompt userQuery modelName
    runAttempts transport modelName maxAttempts initialBackoff backoffMultiplier
      1 maxAttempts none

/-- The HTTP request that _call_gemini issues (lines 99 to 107): URL,
headers and JSON body of the requests.post call. -/
structure HttpRequest where
  url : String
  headers : List (String × String)
  body : Json

/-- Lines 99 to 107: the headers carry the content type and the API key
under x-goog-api-key; the URL is the configured endpoint; the body is
the payload. -/
def buildRequest (apiKey apiUrl : String) (payload : Json) : HttpRequest :=
  ⟨apiUrl,
   [("Content-Type", "application/json"), ("x-goog-api-key", apiKey)],
   payload⟩

/-- The top-level keys of a JSON object (used to state that the payload
has no model or config field). -/
def topKeys (j : Json) : List String :=
  match j with
  | .obj kvs => kvs.map Prod.fst
  | _ => []

/-- Accessor for the inline image data field of a payload:
contents[0].parts[0].inlineData.data. -/
def payloadImageData (p : Json) : Except PyError Json := do
  let contents ← pyGet p "contents" Json.null
  let c0 ← pySub0 contents
  let parts ← pyGet c0 "parts" Json.null
  let p0 ← pySub0 parts
  let inline ← pyGet p0 "inlineData" Json.null
  pyGet inline "data" Json.null

/-- Python truthiness for an optional string: None and the empty string
are falsy. -/
def isFalsy : Option String → Bool
  | none => true
  | some s => s = ""

/-- The Python expression a or b on optional strings. -/
def pyOr (a b : Option String) : Option String :=
  match a with
  | some s => if s = "" then b else some s
  | none => b

/-- A constructed client: its resolved credentials. -/
structure GeminiClient where
  apiKey : String
  apiUrl : String

/-- The constructor GeminiClient.__init__ (lines 85 to 92): resolve the
key from the explicit argument or the GEMINI_API_KEY environment
fallback, the URL from the argument or the class default, and raise
ValueError when no key resolved.  Construction is a pure function of
its configuration inputs and involves no transport. -/
def mkGeminiClient (apiKeyArg apiUrlArg envKey : Option String)
    (defaultUrl : String) : Except String GeminiClient :=
  let key := pyOr apiKeyArg envKey
  let url := pyOr apiUrlArg (some defaultUrl)
  if isFalsy key then
    .error "API key must be provided or set as GEMINI_API_KEY environment variable."
  else
    .ok ⟨key.getD "", url.getD ""⟩

/-- The empty needle is a substring of every haystack. -/
theorem containsSub_nil (l : List Char) : containsSub [] l = true := by
  cases l with
  | nil => rfl
  | cons c t => simp [containsSub, List.isPrefixOf]

/-- A substring of a list is a substring of any right extension. -/
theorem containsSub_append_left (needle l1 l2 : List Char)
    (h : containsSub needle l1 = true) : containsSub needle (l1 ++ l2) = true := by
  induction l1 with
  | nil =>
    simp only [containsSub, List.isEmpty_iff] at h
    subst h
    exact containsSub_nil l2
  | cons c t ih =>
    simp only [containsSub, Bool.or_eq_true] at h ⊢
    rcases h with h | h
    · left
      rw [List.isPrefixOf_iff_prefix] at h ⊢
      exact h.trans (List.prefix_append _ _)
    · right
      exact ih h

/-- String version of the previous lemma. -/
theorem strContainsB_append_left (s t needle : String)
    (h : strContainsB s needle = true) : strContainsB (s ++ t) needle = true := by
  have e : (s ++ t).toList = s.toList ++ t.toList := rfl
  unfold strContainsB at h ⊢
  rw [e]
  exact containsSub_append_left _ _ _ h

/-- sextetVal inverts sextetChar on 6-bit values. -/
theorem sextetVal_sextetChar : ∀ n < 64, sextetVal (sextetChar n) = n := by decide

/-- Alphabet characters are never the padding character. -/
theorem sextetChar_ne_pad : ∀ n < 64, ¬ sextetChar n = '=' := by decide

/-- Base64 decoding inverts base64 encoding on byte lists. -/
theorem b64_roundtrip : ∀ bs : List Nat, (∀ x ∈ bs, x < 256) →
    b64DecodeList (b64EncodeList bs) = bs
  | [] => fun _ => rfl
  | [a] => fun h => by
    have ha : a < 256 := h a (by simp)
    simp only [b64EncodeList, b64DecodeList, if_true]
    rw [sextetVal_sextetChar _ (by omega), sextetVal_sextetChar _ (by omega)]
    simp only [List.cons.injEq, and_true]
    omega
  | [a, b] => fun h => by
    have ha : a < 256 := h a (by simp)
    have hb : b < 256 := h b (by simp)
    simp only [b64EncodeList, b64DecodeList]
    rw [if_neg (sextetChar_ne_pad _ (by omega))]
    simp only [if_true]
    rw [sextetVal_sextetChar _ (by omega), sextetVal_sextetChar _ (by omega),
      sextetVal_sextetChar _ (by omega)]
    simp only [List.cons.injEq, and_true]
    omega
  | a :: b :: c :: rest => fun h => by
    have ha : a < 256 := h a (by simp)
    have hb : b < 256 := h b (by simp)
    have hc : c < 256 := h c (by simp)
    have ih := b64_roundtrip rest (fun x hx => h x (by simp [hx]))
    simp only [b64EncodeList, b64DecodeList]
    rw [if_neg (sextetChar_ne_pad _ (by omega)), if_neg (sextetChar_ne_pad _ (by omega))]
    rw [sextetVal_sextetChar _ (by omega), sextetVal_sextetChar _ (by omega),
      sextetVal_sextetChar _ (by omega), sextetVal_sextetChar _ (by omega)]
    rw [ih]
    simp only [List.cons.injEq, and_true]
    omega

/-- One loop iteration, success case: the parsed response yields an
outcome dictionary, returned immediately. -/
theorem runAttempts_ok (transport : Transport) (m : String) (maxA : Nat)
    (i mu : ℚ) (attempt fuel : Nat) (le : Option PyError) (r j : Json)
    (hc : callGemini (transport attempt) = .ok r)
    (he : extractOutcome r m = .ok j) :
    runAttempts transport m maxA i mu attempt (fuel + 1) le = ⟨.ok j, 1, []⟩ := by
  conv_lhs => rw [runAttempts]
  rw [hc]
  simp only [he]

/-- One loop iteration, uncaught-exception case: the parsed response
makes the extraction chain raise, and the exception escapes. -/
theorem runAttempts_uncaught (transport : Transport) (m : String) (maxA : Nat)
    (i mu : ℚ) (attempt fuel : Nat) (le : Option PyError) (r : Json) (e : PyError)
    (hc : callGemini (transport attempt) = .ok r)
    (he : extractOutcome r m = .error e) :
    runAttempts transport m maxA i mu attempt (fuel + 1) le = ⟨.error e, 1, []⟩ := by
  conv_lhs => rw [runAttempts]
  rw [hc]
  simp only [he]

/-- One loop iteration, break case: a caught error the classifier deems
non-retryable stops the loop at once. -/
theorem runAttempts_break (transport : Transport) (m : String) (maxA : Nat)
    (i mu : ℚ) (attempt fuel : Nat) (le : Option PyError) (e : PyError)
    (hc : callGemini (transport attempt) = .error e)
    (hb : shouldBreak e = true) :
    runAttempts transport m maxA i mu attempt (fuel + 1) le =
      ⟨.ok (failureJson (some e) m), 1, []⟩ := by
  conv_lhs => rw [runAttempts]
  rw [hc]
  simp only [hb, if_true]

/-- One loop iteration, final-attempt case: a retryable error on the
last attempt falls through to the final failure dictionary with no
sleep. -/
theorem runAttempts_last (transport : Transport) (m : String) (maxA : Nat)
    (i mu : ℚ) (attempt fuel : Nat) (le : Option PyError) (e : PyError)
    (hc : callGemini (transport attempt) = .error e)
    (hb : shouldBreak e = false)
    (hge : ¬ attempt < maxA) :
    runAttempts transport m maxA i mu attempt (fuel + 1) le =
      ⟨.ok (failureJson (some e) m), 1, []⟩ := by
  conv_lhs => rw [runAttempts]
  rw [hc]
  simp only [hb, Bool.false_eq_true, if_false]
  rw [if_neg hge]

/-- One loop iteration, retry case: a retryable error with attempts
remaining sleeps for the backoff duration and continues. -/
theorem runAttempts_retry (transport : Transport) (m : String) (maxA : Nat)
    (i mu : ℚ) (attempt fuel : Nat) (le : Option PyError) (e : PyError)
    (hc : callGemini (transport attempt) = .error e)
    (hb : shouldBreak e = false)
    (hlt : attempt < maxA) :
    runAttempts transport m maxA i mu attempt (fuel + 1) le =
      ⟨(runAttempts transport m maxA i mu (attempt + 1) fuel (some e)).result,
       (runAttempts transport m maxA i mu (attempt + 1) fuel (some e)).attempts + 1,
       i * mu ^ (attempt - 1) ::
         (runAttempts transport m maxA i mu (attempt + 1) fuel (some e)).sleeps⟩ := by
  conv_lhs => rw [runAttempts]
  rw [hc]
  simp only [hb, Bool.false_eq_true, if_false]
  rw [if_pos hlt]

/-- Once entered with fuel, the loop performs at least one attempt. -/
theorem runAttempts_attempts_pos (transport : Transport) (m : String)
    (maxA : Nat) (i mu : ℚ) (attempt fuel : Nat) (le : Option PyError) :
    1 ≤ (runAttempts transport m maxA i mu attempt (fuel + 1) le).attempts := by
  rcases hcall : callGemini (transport attempt) with e | r
  · rcases hbr : shouldBreak e with hb | hb
    · by_cases hlt : attempt < maxA
      · rw [runAttempts_retry transport m maxA i mu attempt fuel le e hcall hbr hlt]
        simp
      · rw [runAttempts_last transport m maxA i mu attempt fuel le e hcall hbr hlt]
    · rw [runAttempts_break transport m maxA i mu attempt fuel le e hcall hbr]
  · rcases hex : extractOutcome r m with e | j
    · rw [runAttempts_uncaught transport m maxA i mu attempt fuel le r e hcall hex]
    · rw [runAttempts_ok transport m maxA i mu attempt fuel le r j hcall hex]

/-- When every attempt fails with the same caught, non-breaking error,
the loop consumes all its fuel and falls through to the final failure
dictionary. -/
theorem runAttempts_all_fail (transport : Transport) (m : String) (maxA : Nat)
    (i mu : ℚ) (err : PyError)
    (hc : ∀ n, callGemini (transport n) = .error err)
    (hb : shouldBreak err = false) :
    ∀ (fuel attempt : Nat) (le : Option PyError), attempt + fuel = maxA →
      (runAttempts transport m maxA i mu attempt (fuel + 1) le).result
          = .ok (failureJson (some err) m) ∧
      (runAttempts transport m maxA i mu attempt (fuel + 1) le).attempts = fuel + 1 := by
  intro fuel
  induction fuel with
  | zero =>
    intro attempt le hinv
    rw [runAttempts_last transport m maxA i mu attempt 0 le err (hc attempt) hb
      (by omega)]
    exact ⟨rfl, rfl⟩
  | succ j ih =>
    intro attempt le hinv
    have hrec := ih (attempt + 1) (some err) (by omega)
    rw [runAttempts_retry transport m maxA i mu attempt (j + 1) le err (hc attempt) hb
      (by omega)]
    exact ⟨hrec.1, by rw [hrec.2]⟩

/-- C6: for every byte list and prompts, the payload built from the
encoded buffer carries exactly the base64 encoding of those bytes in
its inline image data field, and base64-decoding that field reproduces
the original bytes.  Determinism holds definitionally: both the encoder
and the builder are pure functions of their arguments. -/
theorem payload_image_base64_roundtrip (bytes : List Nat) (h : ∀ x ∈ bytes, x < 256)
    (systemPrompt userQuery modelName : String) :
    encodeImageBuffer (.ok bytes) = .ok (String.mk (b64EncodeList bytes)) ∧
    payloadImageData (makeGeminiPayload (String.mk (b64EncodeList bytes))
        systemPrompt userQuery modelName)
      = .ok (Json.str (String.mk (b64EncodeList bytes))) ∧
    b64DecodeList (String.mk (b64EncodeList bytes)).toList = bytes := by
  refine ⟨rfl, rfl, ?_⟩
  show b64DecodeList (b64EncodeList bytes) = bytes
  exact b64_roundtrip bytes h

/-- Witness for the round-trip theorem at a concrete byte list. -/
theorem payload_image_base64_roundtrip_witness :
    (∀ x ∈ [0, 77, 255, 7], x < 256) ∧
    b64DecodeList (String.mk (b64EncodeList [0, 77, 255, 7])).toList = [0, 77, 255, 7] :=
  ⟨by decide, (payload_image_base64_roundtrip [0, 77, 255, 7] (by decide) "sys" "q" "mdl").2.2⟩

/-- C7: the payload has exactly the wire shape required by the
provider (one user-role message with an inline JPEG part and one
labeled text part), its only top-level key is contents (no model or
config field), and the request built by the client carries the API key
only in the x-goog-api-key header: the URL and the body of the request
are independent of the key. -/
theorem payload_shape_key_in_header
    (base64Image systemPrompt userQuery modelName apiKey apiUrl : String) :
    makeGeminiPayload base64Image systemPrompt userQuery modelName =
      Json.obj [("contents", Json.arr [Json.obj [
        ("role", Json.str "user"),
        ("parts", Json.arr [
          Json.obj [("inlineData", Json.obj [
            ("mimeType", Json.str "image/jpeg"),
            ("data", Json.str base64Image)])],
          Json.obj [("text", Json.str ("SYSTEM INSTRUCTION: " ++ systemPrompt ++
            "\n\nUSER QUERY: " ++ userQuery))]])]])] ∧
    topKeys (makeGeminiPayload base64Image systemPrompt userQuery modelName)
      = ["contents"] ∧
    buildRequest apiKey apiUrl (makeGeminiPayload base64Image systemPrompt userQuery modelName)
      = ⟨apiUrl, [("Content-Type", "application/json"), ("x-goog-api-key", apiKey)],
         makeGeminiPayload base64Image systemPrompt userQuery modelName⟩ ∧
    (∀ k1 k2 : String,
      (buildRequest k1 apiUrl (makeGeminiPayload base64Image systemPrompt userQuery modelName)).url
        = (buildRequest k2 apiUrl (makeGeminiPayload base64Image systemPrompt userQuery modelName)).url ∧
      (buildRequest k1 apiUrl (makeGeminiPayload base64Image systemPrompt userQuery modelName)).body
        = (buildRequest k2 apiUrl (makeGeminiPayload base64Image systemPrompt userQuery modelName)).body) :=
  ⟨rfl, rfl, rfl, fun _ _ => ⟨rfl, rfl⟩⟩

/-- C8: construction with no truthy key argument and no truthy
environment fallback fails with the configuration ValueError (and the
constructor is a pure function of its configuration inputs, so no
transport is involved); conversely every successfully constructed
client holds a non-empty key. -/
theorem construct_requires_key :
    (∀ (apiKeyArg apiUrlArg envKey : Option String) (defaultUrl : String),
      isFalsy apiKeyArg = true → isFalsy envKey = true →
      mkGeminiClient apiKeyArg apiUrlArg envKey defaultUrl =
        .error "API key must be provided or set as GEMINI_API_KEY environment variable.") ∧
    (∀ (apiKeyArg apiUrlArg envKey : Option String) (defaultUrl : String) (c : GeminiClient),
      mkGeminiClient apiKeyArg apiUrlArg envKey defaultUrl = .ok c → c.apiKey ≠ "") := by
  constructor
  · intro a u e d ha he
    have hk : pyOr a e = e := by
      rcases a with _ | s
      · rfl
      · simp only [isFalsy, decide_eq_true_eq] at ha
        simp [pyOr, ha]
    simp only [mkGeminiClient, hk]
    rw [if_pos he]
  · intro a u e d c hc
    simp only [mkGeminiClient] at hc
    by_cases hf : isFalsy (pyOr a e) = true
    · rw [if_pos hf] at hc
      exact absurd hc (by simp)
    · rw [if_neg hf] at hc
      injection hc with h
      subst h
      rcases hke : pyOr a e with _ | s
      · rw [hke] at hf
        simp [isFalsy] at hf
      · rw [hke] at hf
        simp only [isFalsy, decide_eq_true_eq] at hf
        simpa [hke] using hf

/-- Witness for the construction theorem: both conjuncts at concrete
configuration inputs. -/
theorem construct_requires_key_witness :
    (isFalsy none = true ∧
      mkGeminiClient none none none "https://example.invalid" =
        .error "API key must be provided or set as GEMINI_API_KEY environment variable.") ∧
    (mkGeminiClient (some "k") none none "https://example.invalid" =
        .ok ⟨"k", "https://example.invalid"⟩ ∧
      ("k" : String) ≠ "") :=
  ⟨⟨rfl, construct_requires_key.1 none none none _ rfl rfl⟩,
   ⟨rfl, construct_requires_key.2 (some "k") none none "https://example.invalid"
      ⟨"k", "https://example.invalid"⟩ rfl⟩⟩

/-- C9 counterexample: an empty (but readable) buffer does not fail
encoding; it encodes to the empty string and the call proceeds to the
network, here returning a positive outcome after one transport call --
not a negative outcome with zero transport calls. -/
theorem empty_buffer_reaches_network :
    analyzeImageFromBuffer (fun _ => .ok ⟨200, "resp", some (Json.obj [])⟩)
      (.ok []) "gemini-2.5-flash" "sys" "query" 3 1 2
    = ⟨.ok (successJson (Json.str "") "gemini-2.5-flash" (Json.num 0)), 1, []⟩ := rfl

/-- C9 amended: an unreadable buffer (one whose read raises) yields the
encoding-failure outcome immediately: negative, an error message that
begins with the image-encoding text, zero attempts and zero sleeps. -/
theorem unreadable_buffer_no_attempts (msg : String) (transport : Transport)
    (modelName systemPrompt userQuery : String) (maxAttempts : Nat) (i mu : ℚ) :
    analyzeImageFromBuffer transport (.error msg) modelName systemPrompt userQuery
        maxAttempts i mu =
      ⟨.ok (Json.obj [("success", Json.bool false),
        ("error", Json.str ("Image encoding failed: " ++ msg))]), 0, []⟩ := rfl

/-- C2: a 2xx response whose valid JSON body has an empty candidates
list makes the extraction at line 163 raise IndexError, which the
except clause does not catch: the exception escapes analyze rather than
being returned as an outcome dictionary. -/
theorem empty_candidates_raises :
    analyzeImageFromBuffer
      (fun _ => .ok ⟨200, "\x7b\"candidates\": []\x7d",
        some (Json.obj [("candidates", Json.arr [])])⟩)
      (.ok [1, 2, 3]) "gemini-2.5-flash" "sys" "query" 3 1 2
    = ⟨.error .indexError, 1, []⟩ := rfl

/-- C10 counterexample: a 2xx response whose valid JSON body has the
candidates structure but an empty parts list does not produce a
positive outcome: the subscription raises an uncaught IndexError. -/
theorem empty_parts_not_positive :
    analyzeImageFromBuffer
      (fun _ => .ok ⟨200, "parts-empty",
        some (Json.obj [("candidates", Json.arr [Json.obj [("content",
          Json.obj [("parts", Json.arr [])])]])])⟩)
      (.ok [1, 2, 3]) "gemini-2.5-flash" "sys" "query" 3 1 2
    = ⟨.error .indexError, 1, []⟩ := rfl

/-- When both extraction chains succeed, the try block produces the
success dictionary. -/
theorem extractOutcome_ok (j t tok : Json) (m : String)
    (hA : extractAnalysis j = .ok t) (hT : extractTokens j = .ok tok) :
    extractOutcome j m = .ok (successJson t m tok) := by
  unfold extractOutcome
  rw [hA]
  simp only [hT]
  rfl

/-- C10 amended: when the parsed 2xx body is one of the two
missing-structure shapes named by the claim (the empty JSON object, or
a response whose first part is an object without a text key), all the
defaulting lookups succeed and analyze returns a positive outcome with
empty analysis text and zero tokens after exactly one attempt. -/
theorem missing_keys_default_success (transport : Transport) (bodyText : String)
    (modelName systemPrompt userQuery : String) (buf : List Nat) (k : Nat)
    (i mu : ℚ) (j : Json)
    (hj : j = Json.obj [] ∨
      j = Json.obj [("candidates", Json.arr [Json.obj [("content",
        Json.obj [("parts", Json.arr [Json.obj []])])]])])
    (ht : transport 1 = .ok ⟨200, bodyText, some j⟩) :
    analyzeImageFromBuffer transport (.ok buf) modelName systemPrompt userQuery
        (k + 1) i mu
      = ⟨.ok (successJson (Json.str "") modelName (Json.num 0)), 1, []⟩ := by
  have hc : callGemini (transport 1) = .ok j := by
    rw [ht]
    simp only [callGemini]
    rw [if_neg (by omega)]
  have he : extractOutcome j modelName = .ok (successJson (Json.str "") modelName (Json.num 0)) := by
    rcases hj with rfl | rfl
    · rfl
    · rfl
  simp only [analyzeImageFromBuffer, encodeImageBuffer]
  exact runAttempts_ok transport modelName (k + 1) i mu 1 k none j _ hc he

/-- Witness for the missing-structure theorem at the empty JSON object
body. -/
theorem missing_keys_default_success_witness :
    analyzeImageFromBuffer (fun _ => .ok ⟨200, "empty-object", some (Json.obj [])⟩)
      (.ok [5]) "gemini-2.5-flash" "sys" "query" 3 1 2
    = ⟨.ok (successJson (Json.str "") "gemini-2.5-flash" (Json.num 0)), 1, []⟩ :=
  missing_keys_default_success (fun _ => .ok ⟨200, "empty-object", some (Json.obj [])⟩)
    "empty-object" "gemini-2.5-flash" "sys" "query" [5] 2 1 2 (Json.obj [])
    (Or.inl rfl) rfl

/-- C5: a 2xx response with parseable JSON body from which the
extraction chain succeeds makes analyze return the positive outcome
immediately (one attempt, no sleeps), with the analysis text being the
first text part of the first candidate and the token count from
usageMetadata (the extraction hypotheses state exactly the lookups of
lines 163 to 167); moreover the concrete Gir response of the spec gives
success with that text and 42 tokens, and a 429 followed by a 200 with
a body whose extraction succeeds gives exactly 2 attempts, one sleep,
and the positive outcome. -/
theorem success_immediate :
    (∀ (transport : Transport) (status : Nat) (bodyText : String) (j t tok : Json)
       (m sys q : String) (buf : List Nat) (k : Nat) (i mu : ℚ),
      200 ≤ status → status < 300 →
      transport 1 = .ok ⟨status, bodyText, some j⟩ →
      extractAnalysis j = .ok t → extractTokens j = .ok tok →
      analyzeImageFromBuffer transport (.ok buf) m sys q (k + 1) i mu
        = ⟨.ok (successJson t m tok), 1, []⟩) ∧
    (analyzeImageFromBuffer
        (fun _ => .ok ⟨200, "gir-body", some (Json.obj [
          ("candidates", Json.arr [Json.obj [("content", Json.obj [("parts",
            Json.arr [Json.obj [("text", Json.str "Gir breed, high confidence")]])])]]),
          ("usageMetadata", Json.obj [("totalTokenCount", Json.num 42)])])⟩)
        (.ok [1, 2, 3]) "gemini-2.5-flash" "sys" "query" 3 1 2
      = ⟨.ok (successJson (Json.str "Gir breed, high confidence") "gemini-2.5-flash"
          (Json.num 42)), 1, []⟩) ∧
    (∀ (transport : Transport) (b1 bodyText : String) (jv : Option Json) (j t tok : Json)
       (m sys q : String) (buf : List Nat) (k : Nat) (i mu : ℚ),
      transport 1 = .ok ⟨429, b1, jv⟩ →
      transport 2 = .ok ⟨200, bodyText, some j⟩ →
      extractAnalysis j = .ok t → extractTokens j = .ok tok →
      (analyzeImageFromBuffer transport (.ok buf) m sys q (k + 2) i mu).result
          = .ok (successJson t m tok) ∧
      (analyzeImageFromBuffer transport (.ok buf) m sys q (k + 2) i mu).attempts = 2 ∧
      (analyzeImageFromBuffer transport (.ok buf) m sys q (k + 2) i mu).sleeps = [i]) := by
  refine ⟨?_, rfl, ?_⟩
  · intro transport status bodyText j t tok m sys q buf k i mu h1 h2 ht hA hT
    have hc : callGemini (transport 1) = .ok j := by
      rw [ht]
      simp only [callGemini]
      rw [if_neg (by omega)]
    simp only [analyzeImageFromBuffer, encodeImageBuffer]
    exact runAttempts_ok transport m (k + 1) i mu 1 k none j _ hc
      (extractOutcome_ok j t tok m hA hT)
  · intro transport b1 bodyText jv j t tok m sys q buf k i mu ht1 ht2 hA hT
    have hc1 : callGemini (transport 1)
        = .error (.apiError ("Gemini API Error 429. Details: " ++ b1)) := by
      rw [ht1]
      simp only [callGemini]
      rw [if_pos (by omega), if_neg (by omega)]
      rfl
    have h429 : strContainsB ("Gemini API Error 429. Details: " ++ b1) "429" = true :=
      strContainsB_append_left "Gemini API Error 429. Details: " b1 "429" (by decide)
    have hb : shouldBreak (.apiError ("Gemini API Error 429. Details: " ++ b1)) = false := by
      simp only [shouldBreak, h429, Bool.not_true, Bool.and_false]
    have hc2 : callGemini (transport 2) = .ok j := by
      rw [ht2]
      simp only [callGemini]
      rw [if_neg (by omega)]
    have hrest := runAttempts_ok transport m (k + 2) i mu 2 k (some
      (.apiError ("Gemini API Error 429. Details: " ++ b1))) j _ hc2
      (extractOutcome_ok j t tok m hA hT)
    simp only [analyzeImageFromBuffer, encodeImageBuffer]
    rw [runAttempts_retry transport m (k + 2) i mu 1 (k + 1) none _ hc1 hb (by omega)]
    rw [hrest]
    refine ⟨rfl, rfl, ?_⟩
    show i * mu ^ (1 - 1) :: [] = [i]
    norm_num

/-- Witness for the success theorem: the general 2xx part at a concrete
single-success transport, and the 429-then-200 part at a concrete
two-phase transport. -/
theorem success_immediate_witness :
    (analyzeImageFromBuffer (fun _ => .ok ⟨200, "ok-body",
        some (Json.obj [("candidates", Json.arr [Json.obj [("content",
          Json.obj [("parts", Json.arr [Json.obj [("text", Json.str "hello")]])])]])])⟩)
      (.ok [9]) "gemini-2.5-flash" "sys" "query" 3 1 2
      = ⟨.ok (successJson (Json.str "hello") "gemini-2.5-flash" (Json.num 0)), 1, []⟩) ∧
    ((analyzeImageFromBuffer (fun n => if n = 1 then .ok ⟨429, "rate", none⟩
          else .ok ⟨200, "ok-body", some (Json.obj [("candidates", Json.arr [Json.obj
            [("content", Json.obj [("parts", Json.arr [Json.obj [("text",
              Json.str "hello")]])])]])])⟩)
        (.ok [9]) "gemini-2.5-flash" "sys" "query" 3 1 2).attempts = 2) := by
  constructor
  · exact success_immediate.1 _ 200 "ok-body" _ (Json.str "hello") (Json.num 0)
      "gemini-2.5-flash" "sys" "query" [9] 2 1 2 (by decide) (by decide) rfl rfl rfl
  · exact (success_immediate.2.2
      (fun n => if n = 1 then .ok ⟨429, "rate", none⟩
        else .ok ⟨200, "ok-body", some (Json.obj [("candidates", Json.arr [Json.obj
          [("content", Json.obj [("parts", Json.arr [Json.obj [("text",
            Json.str "hello")]])])]])])⟩)
      "rate" "ok-body" none
      (Json.obj [("candidates", Json.arr [Json.obj [("content", Json.obj [("parts",
        Json.arr [Json.obj [("text", Json.str "hello")]])])]])])
      (Json.str "hello") (Json.num 0) "gemini-2.5-flash" "sys" "query" [9] 1 1 2
      rfl rfl rfl rfl).2.1

/-- C1 counterexample: a 401 response whose body happens to contain the
digits 429 is retried: with three attempts available the loop performs
all three, not exactly one, because the classifier at line 181 string-
matches the formatted message, and the body text defeats the 429
exemption check. -/
theorem status401_with_429_body_retries :
    (analyzeImageFromBuffer (fun _ => .ok ⟨401, "quota 429 exceeded", none⟩)
      (.ok [1, 2, 3]) "gemini-2.5-flash" "sys" "query" 3 1 2).attempts = 3 := by decide

/-- C1 amended: classification by the string matcher of line 181.
Part one: a 400, 401 or 403 response whose formatted error message does
not contain the substring 429 (the fixed message text never does, so
this is a condition on the body) breaks the loop: exactly one attempt,
no sleeps, and the negative outcome carries the status and body.
Parts two to four: a 429 response (whatever its body), a 5xx response
whose formatted message does not contain the substring API Error 4, and
a network-level failure are all retried when attempts remain. -/
theorem retry_classification :
    (∀ (status : Nat) (bodyText : String) (jv : Option Json) (transport : Transport)
       (m sys q : String) (buf : List Nat) (k : Nat) (i mu : ℚ),
      (status = 400 ∨ status = 401 ∨ status = 403) →
      strContainsB ("Gemini API Error " ++ toString status ++
        ": Check API Key or URL configuration. Details: " ++ bodyText) "429" = false →
      transport 1 = .ok ⟨status, bodyText, jv⟩ →
      analyzeImageFromBuffer transport (.ok buf) m sys q (k + 1) i mu
        = ⟨.ok (failureJson (some (.apiError ("Gemini API Error " ++ toString status ++
            ": Check API Key or URL configuration. Details: " ++ bodyText))) m), 1, []⟩) ∧
    (∀ (bodyText : String) (jv : Option Json) (transport : Transport)
       (m sys q : String) (buf : List Nat) (k : Nat) (i mu : ℚ),
      transport 1 = .ok ⟨429, bodyText, jv⟩ →
      2 ≤ (analyzeImageFromBuffer transport (.ok buf) m sys q (k + 2) i mu).attempts) ∧
    (∀ (status : Nat) (bodyText : String) (jv : Option Json) (transport : Transport)
       (m sys q : String) (buf : List Nat) (k : Nat) (i mu : ℚ),
      500 ≤ status → status < 600 →
      strContainsB ("Gemini API Error " ++ toString status ++ ". Details: " ++ bodyText)
        "API Error 4" = false →
      transport 1 = .ok ⟨status, bodyText, jv⟩ →
      2 ≤ (analyzeImageFromBuffer transport (.ok buf) m sys q (k + 2) i mu).attempts) ∧
    (∀ (netMsg : String) (transport : Transport)
       (m sys q : String) (buf : List Nat) (k : Nat) (i mu : ℚ),
      transport 1 = .error netMsg →
      2 ≤ (analyzeImageFromBuffer transport (.ok buf) m sys q (k + 2) i mu).attempts) := by
  refine ⟨?_, ?_, ?_, ?_⟩
  · intro status bodyText jv transport m sys q buf k i mu hs h429 ht
    have hc : callGemini (transport 1) = .error (.apiError ("Gemini API Error " ++
        toString status ++ ": Check API Key or URL configuration. Details: " ++ bodyText)) := by
      rw [ht]
      simp only [callGemini]
      rw [if_pos (by rcases hs with rfl | rfl | rfl <;> omega), if_pos hs]
    have hA4 : strContainsB ("Gemini API Error " ++ toString status ++
        ": Check API Key or URL configuration. Details: " ++ bodyText) "API Error 4" = true := by
      rcases hs with rfl | rfl | rfl
      · exact strContainsB_append_left
          "Gemini API Error 400: Check API Key or URL configuration. Details: "
          bodyText "API Error 4" (by decide)
      · exact strContainsB_append_left
          "Gemini API Error 401: Check API Key or URL configuration. Details: "
          bodyText "API Error 4" (by decide)
      · exact strContainsB_append_left
          "Gemini API Error 403: Check API Key or URL configuration. Details: "
          bodyText "API Error 4" (by decide)
    have hb : shouldBreak (.apiError ("Gemini API Error " ++ toString status ++
        ": Check API Key or URL configuration. Details: " ++ bodyText)) = true := by
      simp only [shouldBreak, hA4, h429, Bool.not_false, Bool.and_true]
    simp only [analyzeImageFromBuffer, encodeImageBuffer]
    exact runAttempts_break transport m (k + 1) i mu 1 k none _ hc hb
  · intro bodyText jv transport m sys q buf k i mu ht
    have hc : callGemini (transport 1)
        = .error (.apiError ("Gemini API Error 429. Details: " ++ bodyText)) := by
      rw [ht]
      simp only [callGemini]
      rw [if_pos (by omega), if_neg (by omega)]
      rfl
    have h429 : strContainsB ("Gemini API Error 429. Details: " ++ bodyText) "429" = true :=
      strContainsB_append_left "Gemini API Error 429. Details: " bodyText "429" (by decide)
    have hb : shouldBreak (.apiError ("Gemini API Error 429. Details: " ++ bodyText)) = false := by
      simp only [shouldBreak, h429, Bool.not_true, Bool.and_false]
    simp only [analyzeImageFromBuffer, encodeImageBuffer]
    rw [runAttempts_retry transport m (k + 2) i mu 1 (k + 1) none _ hc hb (by omega)]
    have hpos := runAttempts_attempts_pos transport m (k + 2) i mu 2 k
      (some (.apiError ("Gemini API Error 429. Details: " ++ bodyText)))
    show 2 ≤ (runAttempts transport m (k + 2) i mu 2 (k + 1)
      (some (.apiError ("Gemini API Error 429. Details: " ++ bodyText)))).attempts + 1
    omega
  · intro status bodyText jv transport m sys q buf k i mu h5 h6 hA4 ht
    have hc : callGemini (transport 1) = .error (.apiError ("Gemini API Error " ++
        toString status ++ ". Details: " ++ bodyText)) := by
      rw [ht]
      simp only [callGemini]
      rw [if_pos (by omega), if_neg (by omega)]
    have hb : shouldBreak (.apiError ("Gemini API Error " ++ toString status ++
        ". Details: " ++ bodyText)) = false := by
      simp only [shouldBreak, hA4, Bool.false_and]
    simp only [analyzeImageFromBuffer, encodeImageBuffer]
    rw [runAttempts_retry transport m (k + 2) i mu 1 (k + 1) none _ hc hb (by omega)]
    have hpos := runAttempts_attempts_pos transport m (k + 2) i mu 2 k
      (some (.apiError ("Gemini API Error " ++ toString status ++ ". Details: " ++ bodyText)))
    show 2 ≤ (runAttempts transport m (k + 2) i mu 2 (k + 1)
      (some (.apiError ("Gemini API Error " ++ toString status ++
        ". Details: " ++ bodyText)))).attempts + 1
    omega
  · intro netMsg transport m sys q buf k i mu ht
    have hc : callGemini (transport 1) = .error (.requestException netMsg) := by
      rw [ht]
      rfl
    have hb : shouldBreak (.requestException netMsg) = false := rfl
    simp only [analyzeImageFromBuffer, encodeImageBuffer]
    rw [runAttempts_retry transport m (k + 2) i mu 1 (k + 1) none _ hc hb (by omega)]
    have hpos := runAttempts_attempts_pos transport m (k + 2) i mu 2 k
      (some (.requestException netMsg))
    show 2 ≤ (runAttempts transport m (k + 2) i mu 2 (k + 1)
      (some (.requestException netMsg))).attempts + 1
    omega

/-- Witness for the classification theorem: all four parts at concrete
transports (plain 401, plain 429, plain 503, network timeout). -/
theorem retry_classification_witness :
    (analyzeImageFromBuffer (fun _ => .ok ⟨401, "Unauthorized", none⟩)
        (.ok [1]) "gemini-2.5-flash" "sys" "query" 3 1 2
      = ⟨.ok (failureJson (some (.apiError ("Gemini API Error " ++ toString 401 ++
          ": Check API Key or URL configuration. Details: " ++ "Unauthorized")))
          "gemini-2.5-flash"), 1, []⟩) ∧
    2 ≤ (analyzeImageFromBuffer (fun _ => .ok ⟨429, "rate limited", none⟩)
        (.ok [1]) "gemini-2.5-flash" "sys" "query" 3 1 2).attempts ∧
    2 ≤ (analyzeImageFromBuffer (fun _ => .ok ⟨503, "Service Unavailable", none⟩)
        (.ok [1]) "gemini-2.5-flash" "sys" "query" 3 1 2).attempts ∧
    2 ≤ (analyzeImageFromBuffer (fun _ => .error "connection timed out")
        (.ok [1]) "gemini-2.5-flash" "sys" "query" 3 1 2).attempts :=
  ⟨retry_classification.1 401 "Unauthorized" none _ "gemini-2.5-flash" "sys" "query"
      [1] 2 1 2 (by omega) (by decide) rfl,
   retry_classification.2.1 "rate limited" none _ "gemini-2.5-flash" "sys" "query"
      [1] 1 1 2 rfl,
   retry_classification.2.2.1 503 "Service Unavailable" none _ "gemini-2.5-flash"
      "sys" "query" [1] 1 1 2 (by omega) (by omega) (by decide) rfl,
   retry_classification.2.2.2 "connection timed out" _ "gemini-2.5-flash" "sys"
      "query" [1] 1 1 2 rfl⟩

/-- C3 counterexample: a 200 response with an unparsable body is NOT
terminal: with three attempts available the loop performs all three
(the invalid-JSON APIError message does not contain API Error 4, so the
classifier does not break). -/
theorem invalid_json_is_retried :
    (analyzeImageFromBuffer (fun _ => .ok ⟨200, "<html>oops</html>", none⟩)
      (.ok [1, 2, 3]) "gemini-2.5-flash" "sys" "query" 3 1 2).attempts = 3 := by decide

/-- C3 amended: a 2xx response with an unparsable body raises APIError
with the invalid-JSON message, which the classifier treats as retryable
(provided the formatted message does not contain the substring
API Error 4, which can only come from the body): the loop retries until
attempts are exhausted and then returns the negative outcome. -/
theorem invalid_json_retryable (transport : Transport) (status : Nat)
    (bodyText : String) (m sys q : String) (buf : List Nat) (k : Nat) (i mu : ℚ)
    (h1 : 200 ≤ status) (h2 : status < 300)
    (hA4 : strContainsB ("Invalid JSON response from API: " ++ bodyText)
      "API Error 4" = false)
    (ht : ∀ n, transport n = .ok ⟨status, bodyText, none⟩) :
    (analyzeImageFromBuffer transport (.ok buf) m sys q (k + 1) i mu).result
        = .ok (failureJson (some (.apiError
            ("Invalid JSON response from API: " ++ bodyText))) m) ∧
    (analyzeImageFromBuffer transport (.ok buf) m sys q (k + 1) i mu).attempts
        = k + 1 := by
  have hc : ∀ n, callGemini (transport n)
      = .error (.apiError ("Invalid JSON response from API: " ++ bodyText)) := by
    intro n
    rw [ht n]
    simp only [callGemini]
    rw [if_neg (by omega)]
  have hb : shouldBreak (.apiError ("Invalid JSON response from API: " ++ bodyText))
      = false := by
    simp only [shouldBreak, hA4, Bool.false_and]
  have := runAttempts_all_fail transport m (k + 1) i mu _ hc hb k 1 none (by omega)
  simpa only [analyzeImageFromBuffer, encodeImageBuffer] using this

/-- Witness for the invalid-JSON theorem at a concrete transport. -/
theorem invalid_json_retryable_witness :
    (analyzeImageFromBuffer (fun _ => .ok ⟨200, "<not json>", none⟩)
        (.ok [1]) "gemini-2.5-flash" "sys" "query" 3 1 2).result
      = .ok (failureJson (some (.apiError
          ("Invalid JSON response from API: " ++ "<not json>"))) "gemini-2.5-flash") ∧
    (analyzeImageFromBuffer (fun _ => .ok ⟨200, "<not json>", none⟩)
        (.ok [1]) "gemini-2.5-flash" "sys" "query" 3 1 2).attempts = 3 :=
  invalid_json_retryable _ 200 "<not json>" "gemini-2.5-flash" "sys" "query" [1] 2 1 2
    (by omega) (by omega) (by decide) (fun _ => rfl)

/-- C4 counterexample: a transport that always returns 500 with a body
containing the text API Error 4 makes the string classifier break after
a single attempt with no sleeps, not three attempts with two sleeps. -/
theorem status500_with_api_error_body_breaks :
    (analyzeImageFromBuffer (fun _ => .ok ⟨500, "API Error 400 from upstream", none⟩)
        (.ok [1, 2, 3]) "gemini-2.5-flash" "sys" "query" 3 1 2).attempts = 1 ∧
    (analyzeImageFromBuffer (fun _ => .ok ⟨500, "API Error 400 from upstream", none⟩)
        (.ok [1, 2, 3]) "gemini-2.5-flash" "sys" "query" 3 1 2).sleeps = [] :=
  ⟨by decide, by decide⟩

/-- C4 amended: with a transport that always fails with status 500 and
a body whose formatted message does not contain the substring
API Error 4 (which can only come from the body), analyze with three
attempts performs exactly three attempts, sleeps exactly twice, for
initialBackoff and then initialBackoff times backoffMultiplier, does
not sleep after the final attempt, and returns the negative outcome. -/
theorem always_500_three_attempts (bodyText : String)
    (hA4 : strContainsB ("Gemini API Error 500. Details: " ++ bodyText)
      "API Error 4" = false)
    (transport : Transport) (ht : ∀ n, transport n = .ok ⟨500, bodyText, none⟩)
    (buf : List Nat) (m sys q : String) (i mu : ℚ) :
    analyzeImageFromBuffer transport (.ok buf) m sys q 3 i mu =
      ⟨.ok (failureJson (some (.apiError
          ("Gemini API Error 500. Details: " ++ bodyText))) m),
        3, [i, i * mu]⟩ := by
  have e1 : ("Gemini API Error " ++ toString (500 : Nat) ++ ". Details: " ++ bodyText)
      = "Gemini API Error 500. Details: " ++ bodyText := rfl
  simp only [analyzeImageFromBuffer, encodeImageBuffer, runAttempts, ht, callGemini]
  norm_num [e1, shouldBreak, hA4]

/-- Witness for the three-attempt theorem at a concrete transport and
concrete backoff parameters. -/
theorem always_500_three_attempts_witness :
    analyzeImageFromBuffer (fun _ => .ok ⟨500, "Internal Server Error", none⟩)
        (.ok [1]) "gemini-2.5-flash" "sys" "query" 3 1 2 =
      ⟨.ok (failureJson (some (.apiError
          ("Gemini API Error 500. Details: " ++ "Internal Server Error")))
          "gemini-2.5-flash"),
        3, [1, 1 * 2]⟩ :=
  always_500_three_attempts "Internal Server Error" (by decide) _ (fun _ => rfl)
    [1] "gemini-2.5-flash" "sys" "query" 1 2
